import Mathlib

/-!
# Verification of the ARM emulator core (`src/lib/wasm/emulator.cpp`)

A shallow embedding of the `ARMEmulatorCore` C++ class and proofs about it.

Modelling conventions:

* Machine integers are `Nat`.  Every `uint32_t` computation that can wrap is
  reduced modulo `2^32` (`u32`), `uint8_t` modulo `2^8` (`u8`) and the
  `uint64_t` instruction counter modulo `2^64` (`u64`).  State fields hold
  arbitrary `Nat`s; every read of a `uint32_t` field made by the source is
  modelled through `Engine.reg` (or an explicit `u32`), which truncates, so
  the model agrees with the C++ code on every state reachable through the
  typed fields.
* The source is compiled with emscripten to wasm32, where the shift
  instructions take the shift count modulo 32; the shift helpers below mask
  the count with `% 32` accordingly (`x << 32` in the source, reached for a
  shift amount of 0 in ROR and in the immediate rotate, therefore yields `x`).
* The memory buffer is modelled as a total function from byte offsets to
  bytes.  Pointer arithmetic `memory + address` is wasm32 pointer arithmetic,
  so offsets are reduced modulo `2^32`; two distinct wrapped offsets never
  alias, which makes the function model observationally faithful for the
  operations of the class.
* `calloc`/`realloc` failure is environment nondeterminism; the model lets
  `init` succeed and models the capacity-doubling loop of `ensureMemory`
  with enough fuel to cover every terminating run of the source loop (a
  fuel exhaustion, i.e. the wrap-to-zero run on which the source loop does
  not terminate, is modelled as allocation failure).
-/

namespace ARMEmulatorCore

/-- `2^32`, the modulus of `uint32_t` arithmetic. -/
def U32 : Nat := 4294967296

/-- Reduce modulo `2^32` (`uint32_t` wraparound). -/
def u32 (x : Nat) : Nat := x % 4294967296

/-- Reduce modulo `2^8` (`uint8_t` wraparound). -/
def u8 (x : Nat) : Nat := x % 256

/-- Reduce modulo `2^64` (`uint64_t` wraparound). -/
def u64 (x : Nat) : Nat := x % 18446744073709551616

/-- Pointwise update of a function, used for the register file
(`registers[i] = v`) and for single byte stores into the memory buffer. -/
def upd (f : Nat → Nat) (i v : Nat) : Nat → Nat :=
  fun j => if j = i then v else f j

/-- The mutable state of an `ARMEmulatorCore` object: the 17-entry register
file (`R0`–`R15` at indices 0–15, CPSR at index 16), the memory buffer
(`none` while the `memory` pointer is null, i.e. before `init`), the
`memorySize`/`memoryCapacity` bookkeeping, the `pc`/`sp`/`lr` shadow fields
and the 64-bit instruction counter. -/
structure Engine where
  registers : Nat → Nat
  memory : Option (Nat → Nat)
  memorySize : Nat
  memoryCapacity : Nat
  isRunning : Bool
  pc : Nat
  sp : Nat
  lr : Nat
  instructionCount : Nat

/-- Read `registers[r]`: the register file stores `uint32_t` values, so a
read returns the value reduced modulo `2^32`. -/
def Engine.reg (s : Engine) (r : Nat) : Nat := u32 (s.registers r)

/-- The constructor `ARMEmulatorCore()`: null memory, all counters and
registers zero. -/
def create : Engine where
  registers := fun _ => 0
  memory := none
  memorySize := 0
  memoryCapacity := 0
  isRunning := false
  pc := 0
  sp := 0
  lr := 0
  instructionCount := 0

/-- `init(initialSize)`: allocate (and zero) a fresh buffer of
`initialSize` bytes (64 MiB when `initialSize == 0`), set
`memorySize = memoryCapacity`, reset `pc`, `lr` and the counter, point `sp`
at `memoryCapacity - 4` (`uint32_t` subtraction) and mirror `sp`/`pc` into
`registers[13]`/`registers[15]`.  The other registers are left as they were
(the source does not clear them in `init`). -/
def init (s : Engine) (initialSize : Nat) : Engine :=
  let cap := if 0 < initialSize then initialSize else 67108864
  let newSP := u32 (cap + U32 - 4)
  { s with
    memory := some (fun _ => 0)
    memoryCapacity := cap
    memorySize := cap
    isRunning := false
    pc := 0
    sp := newSP
    lr := 0
    instructionCount := 0
    registers := upd (upd s.registers 13 newSP) 15 0 }

/-- The doubling loop of `ensureMemory`: `while (newCapacity < size)
newCapacity *= 2;` in `uint32_t` arithmetic, with fuel.  33 doublings reach
any representable size from any positive capacity; if the capacity wraps to
0 the source loop never terminates, which the model reports as `none`. -/
def growCapacity : Nat → Nat → Nat → Option Nat
  | 0, _, _ => none
  | fuel + 1, cap, size => if cap < size then growCapacity fuel (u32 (cap * 2)) size else some cap

/-- `ensureMemory(size)`: returns the new capacity (`realloc` keeps the old
contents; the fresh tail is zeroed, which the byte function already is in
every state produced by `init`). -/
def ensureMemory (cap size : Nat) : Option Nat :=
  if size ≤ cap then some cap
  else growCapacity 33 (u32 (cap * 2)) size

/-- `memcpy(memory + address, data, length)`: store the bytes of `data` at
successive wrapped offsets starting at `address`. -/
def writeBytes : (Nat → Nat) → Nat → List Nat → Nat → Nat
  | m, _, [] => m
  | m, a, b :: rest => writeBytes (upd m (u32 a) (u8 b)) (a + 1) rest

/-- `writeMemory(address, data, length)` with `length = data.length` (the
source takes the length of the byte buffer as a `uint32_t` argument).
Grows the buffer when the wrapped end position exceeds the capacity and
extends `memorySize` up to the wrapped end position. -/
def writeMemory (s : Engine) (address : Nat) (data : List Nat) : Option Engine :=
  match s.memory with
  | none => none
  | some m =>
    let endPos := u32 (address + data.length)
    match (if u32 s.memoryCapacity < endPos
           then ensureMemory (u32 s.memoryCapacity) endPos
           else some (u32 s.memoryCapacity)) with
    | none => none
    | some newCap =>
      some { s with
        memory := some (writeBytes m address data)
        memoryCapacity := newCap
        memorySize := if u32 s.memorySize < endPos then endPos else u32 s.memorySize }

/-- `readMemory(address, output, length)`: fails when the memory pointer is
null or `address + length > memorySize` (a `uint32_t` comparison, so the
sum wraps); otherwise returns the `length` bytes at the wrapped offsets
starting at `address`. -/
def readMemory (s : Engine) (address length : Nat) : Option (List Nat) :=
  match s.memory with
  | none => none
  | some m =>
    if u32 s.memorySize < u32 (address + length) then none
    else some ((List.range length).map fun i => u8 (m (u32 (address + i))))

/-- `setRegister(reg, value)`: registers 0–15 are written and the `sp`/`pc`
shadows follow registers 13/15 (register 14 does NOT update the `lr`
shadow in the source); register 16 is CPSR; anything else is ignored. -/
def setRegister (s : Engine) (r value : Nat) : Engine :=
  if r < 16 then
    { s with
      registers := upd s.registers r value
      sp := if r = 13 then value else s.sp
      pc := if r = 15 then value else s.pc }
  else if r = 16 then
    { s with registers := upd s.registers 16 value }
  else s

/-- `getRegister(reg)`. -/
def getRegister (s : Engine) (r : Nat) : Nat :=
  if r < 16 then s.reg r else if r = 16 then s.reg 16 else 0

/-- `setPC(value)`: sets both the `pc` shadow and `registers[15]`. -/
def setPC (s : Engine) (value : Nat) : Engine :=
  { s with pc := value, registers := upd s.registers 15 value }

/-- `getPC()`. -/
def getPC (s : Engine) : Nat := u32 s.pc

/-- `getMemorySize()`. -/
def getMemorySize (s : Engine) : Nat := u32 s.memorySize

/-- `getInstructionCount()`. -/
def getInstructionCount (s : Engine) : Nat := u64 s.instructionCount

/-- `checkCondition(cond)`: evaluate the 4-bit condition field against the
NZCV bits of CPSR (`registers[16]`). -/
def checkCondition (s : Engine) (cond : Nat) : Bool :=
  let cpsr := s.reg 16
  let n : Bool := (cpsr >>> 31) &&& 1 == 1
  let z : Bool := (cpsr >>> 30) &&& 1 == 1
  let c : Bool := (cpsr >>> 29) &&& 1 == 1
  let v : Bool := (cpsr >>> 28) &&& 1 == 1
  if cond = 0 then z
  else if cond = 1 then !z
  else if cond = 2 then c
  else if cond = 3 then !c
  else if cond = 4 then n
  else if cond = 5 then !n
  else if cond = 6 then v
  else if cond = 7 then !v
  else if cond = 8 then c && !z
  else if cond = 9 then !c || z
  else if cond = 10 then n == v
  else if cond = 11 then !(n == v)
  else if cond = 12 then !z && (n == v)
  else if cond = 13 then z || !(n == v)
  else true

/-- `op2 << shiftAmount` on `uint32_t` under wasm32 (count masked mod 32). -/
def lslCode (x amount : Nat) : Nat := u32 (x <<< (amount % 32))

/-- `op2 >> shiftAmount` on `uint32_t` under wasm32. -/
def lsrCode (x amount : Nat) : Nat := u32 (x >>> (amount % 32))

/-- `(int32_t)op2 >> shiftAmount`: arithmetic right shift of the 32-bit
value `x` (sign bit replicated) with the count masked mod 32. -/
def asrCode (x amount : Nat) : Nat :=
  if x < 2147483648 then u32 (x >>> (amount % 32))
  else u32 ((x >>> (amount % 32)) ||| (4294967295 <<< (32 - amount % 32)))

/-- `(op2 >> shiftAmount) | (op2 << (32 - shiftAmount))` on `uint32_t`
under wasm32: both counts are masked mod 32 (`32 - shiftAmount` is itself a
`uint32_t` subtraction, and `2^32` is divisible by 32, so its masked value
is `(32 - shiftAmount % 32) % 32`). -/
def rorCode (x amount : Nat) : Nat :=
  u32 ((x >>> (amount % 32)) ||| (x <<< ((32 - amount % 32) % 32)))

/-- The barrel shifter of `executeDataProcessing` (register operand form,
`I = 0`): `Rm = bits[3:0]`, shift type `bits[6:5]`, amount from `bits[11:7]`
when `bit[4] = 1` and from `R[Rs] & 0xFF` (`Rs = bits[11:8]`) when
`bit[4] = 0` (this is how the source reads the bit). -/
def shifterOperand (s : Engine) (instruction : Nat) : Nat :=
  let op2 := s.reg (instruction &&& 0xF)
  let shiftType := (instruction >>> 5) &&& 0x3
  let shiftAmount :=
    if (instruction >>> 4) &&& 1 = 1 then (instruction >>> 7) &&& 0x1F
    else s.reg ((instruction >>> 8) &&& 0xF) &&& 0xFF
  if shiftType = 0 then lslCode op2 shiftAmount
  else if shiftType = 1 then lsrCode op2 shiftAmount
  else if shiftType = 2 then asrCode op2 shiftAmount
  else rorCode op2 shiftAmount

/-- The CPSR value written by the flag update of `executeDataProcessing`:
`cpsr &= ~0xF0000000` followed by setting N (bit 31 of the result),
Z (result == 0) and C (the computed carry). -/
def flagsCPSR (t : Engine) (result : Nat) (carry : Bool) : Nat :=
  (t.reg 16 &&& 268435455) ||| (((result >>> 31) &&& 1) <<< 31) |||
    ((if result = 0 then 1 else 0) <<< 30) ||| ((if carry then 1 else 0) <<< 29)

/-- `executeDataProcessing(instruction)`: operand fetch (immediate rotate or
barrel shift), the 16-operation ALU with the source's carry formulas,
writeback (skipped for `TST`/`TEQ`/`CMP`/`CMN`; a write to `R15` only sets
the `pc` shadow in the source, not `registers[15]`), and the NZC flag
update, which clears all four of bits 31..28 and sets N, Z, C. -/
def executeDataProcessing (s : Engine) (instruction : Nat) : Bool × Engine :=
  let op := (instruction >>> 21) &&& 0xF
  let sBit := (instruction >>> 20) &&& 1 = 1
  let Rn := (instruction >>> 16) &&& 0xF
  let Rd := (instruction >>> 12) &&& 0xF
  let op1 := s.reg Rn
  let op2 :=
    if (instruction >>> 25) &&& 1 = 1 then
      rorCode (instruction &&& 0xFF) (((instruction >>> 8) &&& 0xF) * 2)
    else shifterOperand s instruction
  let cin := (s.reg 16 >>> 29) &&& 1
  let result :=
    if op = 0 then op1 &&& op2
    else if op = 1 then op1 ^^^ op2
    else if op = 2 then u32 (op1 + U32 - op2)
    else if op = 3 then u32 (op2 + U32 - op1)
    else if op = 4 then u32 (op1 + op2)
    else if op = 5 then u32 (op1 + op2 + cin)
    else if op = 6 then u32 (op1 + U32 - op2 + U32 - (1 - cin))
    else if op = 7 then u32 (op2 + U32 - op1 + U32 - (1 - cin))
    else if op = 8 then op1 &&& op2
    else if op = 9 then op1 ^^^ op2
    else if op = 10 then u32 (op1 + U32 - op2)
    else if op = 11 then u32 (op1 + op2)
    else if op = 12 then op1 ||| op2
    else if op = 13 then op2
    else if op = 14 then op1 &&& (4294967295 ^^^ op2)
    else 4294967295 ^^^ op2
  let carry : Bool :=
    if op = 2 then op2 ≤ op1
    else if op = 3 then op1 ≤ op2
    else if op = 4 then result < op1
    else if op = 5 then result < op1
    else if op = 6 then result < op1
    else if op = 7 then result < op2
    else if op = 10 then op2 ≤ op1
    else if op = 11 then result < op1
    else false
  let s1 :=
    if op < 8 ∨ 11 < op then
      if Rd = 15 then { s with pc := result }
      else { s with registers := upd s.registers Rd result }
    else s
  let flagged := (sBit ∨ op = 8 ∨ op = 9 ∨ op = 10 ∨ op = 11) ∧ (Rd ≠ 15 ∨ 8 ≤ op)
  let s2 :=
    if flagged then { s1 with registers := upd s1.registers 16 (flagsCPSR s1 result carry) }
    else s1
  (true, s2)

/-- `executeBranch(instruction)`: sign-extend `imm24 << 2` from 26 bits; if
`L = 1` set `lr` (and `registers[14]`) to `pc + 4`; then set `pc` (and
`registers[15]`) to `pc + 8 + offset`, all in `uint32_t` arithmetic. -/
def executeBranch (s : Engine) (instruction : Nat) : Bool × Engine :=
  let offsetRaw := (instruction &&& 0xFFFFFF) <<< 2
  let offset := if offsetRaw &&& 0x2000000 = 0 then offsetRaw else offsetRaw ||| 0xFC000000
  let s1 :=
    if (instruction >>> 24) &&& 1 = 1 then
      { s with lr := u32 (s.pc + 4), registers := upd s.registers 14 (u32 (s.pc + 4)) }
    else s
  let newPC := u32 (s.pc + 8 + offset)
  (true, { s1 with pc := newPC, registers := upd s1.registers 15 newPC })

/-- The unaligned little-endian `uint32_t` load `*(uint32_t*)(memory +
address)`. -/
def readWord (m : Nat → Nat) (a : Nat) : Nat :=
  u8 (m (u32 a)) + 256 * u8 (m (u32 (a + 1))) + 65536 * u8 (m (u32 (a + 2))) +
    16777216 * u8 (m (u32 (a + 3)))

/-- The unaligned little-endian `uint32_t` store `*(uint32_t*)(memory +
address) = v`. -/
def writeWord (m : Nat → Nat) (a v : Nat) : Nat → Nat :=
  upd (upd (upd (upd m (u32 a) (v &&& 0xFF)) (u32 (a + 1)) ((v >>> 8) &&& 0xFF))
    (u32 (a + 2)) ((v >>> 16) &&& 0xFF)) (u32 (a + 3)) ((v >>> 24) &&& 0xFF)

/-- `executeLoadStore(instruction)`: offset from `bits[11:0]` when
`bit[25] = 1` and from `R[Rm]` otherwise (this is how the source reads the
bit), the pre- or post-indexed address, the wrapped bounds check against
`memorySize`, the byte or little-endian word access (a load into `R15`
also sets the `pc` shadow) and the post-index writeback of the base
register (which does NOT update the `sp`/`pc`/`lr` shadows). -/
def executeLoadStore (s : Engine) (instruction : Nat) : Bool × Engine :=
  match s.memory with
  | none => (false, s)
  | some m =>
    let load := (instruction >>> 20) &&& 1 = 1
    let byte := (instruction >>> 22) &&& 1 = 1
    let Rn := (instruction >>> 16) &&& 0xF
    let Rd := (instruction >>> 12) &&& 0xF
    let baseAddr := s.reg Rn
    let offset :=
      if (instruction >>> 25) &&& 1 = 1 then instruction &&& 0xFFF
      else s.reg (instruction &&& 0xF)
    let up := (instruction >>> 23) &&& 1 = 1
    let pre := (instruction >>> 24) &&& 1 = 1
    let indexed := if up then u32 (baseAddr + offset) else u32 (baseAddr + U32 - offset)
    let address := if pre then indexed else baseAddr
    if u32 s.memorySize < u32 (address + (if byte then 1 else 4)) then (false, s)
    else
      let s1 :=
        if load then
          let v := if byte then u8 (m (u32 address)) else readWord m address
          if Rd = 15 then { s with registers := upd s.registers Rd v, pc := v }
          else { s with registers := upd s.registers Rd v }
        else
          if byte then { s with memory := some (upd m (u32 address) (u8 (s.reg Rd))) }
          else { s with memory := some (writeWord m address (s.reg Rd)) }
      let s2 :=
        if pre then s1
        else { s1 with registers := upd s1.registers Rn indexed }
      (true, s2)

/-- `executeInstruction(instruction)`: fail (without counting) when the
memory pointer is null; count; skip with success when the condition fails;
dispatch on `bits[27:26]` (and `bit[25]` for the data-processing family);
fail on the remaining (illegal) encodings. -/
def executeInstruction (s : Engine) (instruction : Nat) : Bool × Engine :=
  match s.memory with
  | none => (false, s)
  | some _ =>
    let s1 := { s with instructionCount := u64 (s.instructionCount + 1) }
    let opcode := (instruction >>> 26) &&& 0x3
    let cond := (instruction >>> 28) &&& 0xF
    if ¬ checkCondition s1 cond then (true, s1)
    else if opcode = 0 ∧ (instruction >>> 25) &&& 1 = 0 then executeDataProcessing s1 instruction
    else if opcode = 2 then executeBranch s1 instruction
    else if opcode = 1 ∨ (opcode = 0 ∧ (instruction >>> 25) &&& 1 = 1) then
      executeLoadStore s1 instruction
    else (false, s1)

/-- `executeInstructions(instructions, count)`: run in order, stop at the
first failure, return the number of successes. -/
def executeInstructions (s : Engine) : List Nat → Nat × Engine
  | [] => (0, s)
  | i :: rest =>
    match executeInstruction s i with
    | (false, s') => (0, s')
    | (true, s') =>
      let (k, s'') := executeInstructions s' rest
      (k + 1, s'')

/-! ## Claim theorems -/

/-- Condition evaluation only looks at the register file: changing the
memory pointer or the instruction counter does not affect it. -/
theorem checkCondition_inc (s : Engine) (mo : Option (Nat → Nat)) (k c : Nat) :
    checkCondition { s with memory := mo, instructionCount := k } c = checkCondition s c := rfl

/-- `u32` is idempotent. -/
theorem u32_idem (x : Nat) : u32 (u32 x) = u32 x :=
  Nat.mod_mod_of_dvd x (dvd_refl _)

/-- A data-processing step never touches the instruction counter. -/
theorem executeDataProcessing_count (s : Engine) (i : Nat) :
    (executeDataProcessing s i).2.instructionCount = s.instructionCount := by
  simp only [executeDataProcessing]
  simp [apply_ite Engine.instructionCount, ite_self]

/-- A branch step never touches the instruction counter. -/
theorem executeBranch_count (s : Engine) (i : Nat) :
    (executeBranch s i).2.instructionCount = s.instructionCount := by
  simp only [executeBranch]
  simp [apply_ite Engine.instructionCount, ite_self]

/-- A load/store step never touches the instruction counter. -/
theorem executeLoadStore_count (s : Engine) (i : Nat) :
    (executeLoadStore s i).2.instructionCount = s.instructionCount := by
  simp only [executeLoadStore]
  cases hm : s.memory with
  | none => rfl
  | some m =>
    simp [apply_ite (fun r : Bool × Engine => r.2.instructionCount),
      apply_ite Engine.instructionCount, ite_self]

/-- C4: a condition-skipped instruction returns success and changes nothing
except the instruction counter, which it advances by one (in `uint64_t`
arithmetic): registers R0–R15, CPSR, the `pc`/`sp`/`lr` shadows and memory
are untouched. -/
theorem C4_condition_skip (s : Engine) (m : Nat → Nat) (inst : Nat)
    (hm : s.memory = some m)
    (hcond : checkCondition s ((inst >>> 28) &&& 0xF) = false) :
    executeInstruction s inst =
      (true, { s with instructionCount := u64 (s.instructionCount + 1) }) := by
  simp [executeInstruction, hm, checkCondition_inc, hcond]

/-- C4 witness: on a fresh 256-byte engine (CPSR = 0, so Z = 0), the word
0x03A0100F (condition EQ) is skipped: success, counter bumped, state
otherwise identical. -/
theorem C4_condition_skip_witness :
    executeInstruction (init create 256) 0x03A0100F =
      (true, { init create 256 with
                 instructionCount := u64 ((init create 256).instructionCount + 1) }) :=
  C4_condition_skip (init create 256) (fun _ => 0) 0x03A0100F rfl (by decide)

/-- C5: every `executeInstruction` call on an initialized engine advances
the 64-bit instruction counter by exactly one (in `uint64_t` arithmetic),
whatever the outcome; on an uninitialized engine (null memory) the call
returns failure and changes nothing, in particular the counter. -/
theorem C5_instruction_counter (s : Engine) (inst : Nat) :
    (∀ m, s.memory = some m →
      (executeInstruction s inst).2.instructionCount = u64 (s.instructionCount + 1)) ∧
    (s.memory = none → executeInstruction s inst = (false, s)) := by
  constructor
  · intro m hm
    simp only [executeInstruction, hm]
    simp [apply_ite (fun r : Bool × Engine => r.2.instructionCount),
      executeDataProcessing_count, executeBranch_count, executeLoadStore_count, ite_self]
  · intro hm
    simp [executeInstruction, hm]

/-- C5 witness: an illegal, condition-passing word on an initialized engine
still bumps the counter; on a freshly created (uninitialized) engine the
call fails and returns the state unchanged. -/
theorem C5_instruction_counter_witness :
    (executeInstruction (init create 256) 0xEC000000).2.instructionCount =
      u64 ((init create 256).instructionCount + 1) ∧
    executeInstruction create 0 = (false, create) :=
  ⟨(C5_instruction_counter (init create 256) 0xEC000000).1 (fun _ => 0) rfl,
   (C5_instruction_counter create 0).2 rfl⟩

/-- C3 (amended): a word of the Illegal family (`bits[27:26] = 0b11`) makes
`executeInstruction` return failure whenever its condition passes; the
counter is still advanced and nothing else changes.  (When the condition
fails the word is skipped with success, see the counterexample.) -/
theorem C3_illegal_family_fails (s : Engine) (m : Nat → Nat) (inst : Nat)
    (hm : s.memory = some m)
    (hfam : (inst >>> 26) &&& 3 = 3)
    (hcond : checkCondition s ((inst >>> 28) &&& 0xF) = true) :
    executeInstruction s inst =
      (false, { s with instructionCount := u64 (s.instructionCount + 1) }) := by
  simp [executeInstruction, hm, checkCondition_inc, hcond, hfam]

/-- C3 witness: the Illegal-family word 0xEC000000 (condition AL) fails on
an initialized engine. -/
theorem C3_illegal_family_fails_witness :
    executeInstruction (init create 256) 0xEC000000 =
      (false, { init create 256 with
                  instructionCount := u64 ((init create 256).instructionCount + 1) }) :=
  C3_illegal_family_fails (init create 256) (fun _ => 0) 0xEC000000 rfl (by decide) (by decide)

/-- C1: falsified by the code (code bug).  The shadow-consistency
invariant fails after several state-mutating operations: a data-processing
write to `Rd = 15` updates `pc` but leaves `registers[15]` behind (here
`MOV R15, R0` with `R0 = 4` yields `pc = 4` but `registers[15] = 0`); a
write to `Rd = 13` updates `registers[13]` but not `sp`; a post-indexed
load with base `Rn = 13` writes the new base into `registers[13]` but not
into `sp`; and `setRegister(14, v)` updates `registers[14]` but not `lr`. -/
theorem C1_shadow_divergence :
    ((executeInstruction (setRegister (init create 256) 0 4) 0xE1A0F010).2.pc = 4 ∧
      (executeInstruction (setRegister (init create 256) 0 4) 0xE1A0F010).2.registers 15 = 0) ∧
    ((executeInstruction (setRegister (init create 256) 0 4) 0xE1A0D010).2.registers 13 = 4 ∧
      (executeInstruction (setRegister (init create 256) 0 4) 0xE1A0D010).2.sp = 252) ∧
    ((executeInstruction (init create 256) 0xE6DD0004).2.registers 13 = 256 ∧
      (executeInstruction (init create 256) 0xE6DD0004).2.sp = 252) ∧
    ((setRegister (init create 256) 14 5).registers 14 = 5 ∧
      (setRegister (init create 256) 14 5).lr = 0) := by
  decide

/-- C2: counterexample.  With the V flag set (CPSR = 0x10000000), executing
the data-processing instruction `TST R0, R0` (0xE1100000, flags forced)
clears bit 28 of CPSR: the V flag is NOT preserved across a flag-updating
data-processing instruction. -/
theorem C2_counterexample :
    ((setRegister (init create 256) 16 268435456).reg 16).testBit 28 = true ∧
    ((executeInstruction (setRegister (init create 256) 16 268435456) 0xE1100000).2.reg
        16).testBit 28 = false := by
  decide

/-- C3: counterexample.  The word 0x0C000000 has the Illegal family
classification (`bits[27:26] = 0b11`) but condition field EQ; on a freshly
initialized engine (Z = 0) the condition fails, so `executeInstruction`
skips the word and returns success, not failure. -/
theorem C3_counterexample :
    (0x0C000000 >>> 26) &&& 3 = 3 ∧
    (executeInstruction (init create 256) 0x0C000000).1 = true := by
  decide

/-- C10: the out-of-range checks compute `address + length` in 32-bit
modular arithmetic: `readMemory(0xFFFFFFFF, 2)` and a word load at address
0xFFFFFFFE pass the bounds check of a 256-byte engine (the wrapped sums
are 1 and 2) even though the exact ranges lie far outside the logical
size. -/
theorem C10_bounds_check_wraps :
    (readMemory (init create 256) 4294967295 2).isSome = true ∧
    ¬ 4294967295 + 2 ≤ getMemorySize (init create 256) ∧
    (executeInstruction (setRegister (init create 256) 1 4294967294) 0xE7910000).1 = true ∧
    ¬ 4294967294 + 4 ≤ getMemorySize (init create 256) := by
  decide

/-- Dropping high bits (at or above 32) under `u32`. -/
theorem u32_or_shiftLeft32 (x y : Nat) : u32 (x ||| (y <<< 32)) = u32 x := by
  have h : (4294967296 : Nat) = 2 ^ 32 := by norm_num
  unfold u32
  rw [h]
  refine Nat.eq_of_testBit_eq fun i => ?_
  rcases Nat.lt_or_ge i 32 with hi | hi
  · have d1 : decide (i < 32) = true := decide_eq_true hi
    have d2 : decide (32 ≤ i) = false := decide_eq_false (by omega)
    simp only [Nat.testBit_mod_two_pow, Nat.testBit_or, Nat.testBit_shiftLeft, d1, d2,
      Bool.true_and, Bool.false_and, Bool.or_false]
  · have d1 : decide (i < 32) = false := decide_eq_false (by omega)
    simp only [Nat.testBit_mod_two_pow, d1, Bool.false_and]

/-- C6: a branch-family word with passing condition sets `pc` (and
`registers[15]`) to `pc + 8 + sign_extend_26(imm24 << 2)` in `uint32_t`
arithmetic, and when the link bit (bit 24) is set it first saves
`pc + 4` into `lr` (and `registers[14]`). -/
theorem C6_branch_link (s : Engine) (m : Nat → Nat) (inst : Nat)
    (hm : s.memory = some m)
    (hfam : (inst >>> 26) &&& 3 = 2)
    (hcond : checkCondition s ((inst >>> 28) &&& 0xF) = true) :
    (executeInstruction s inst).1 = true ∧
    (executeInstruction s inst).2.pc =
      u32 (s.pc + 8 +
        (if ((inst &&& 0xFFFFFF) <<< 2) &&& 0x2000000 = 0 then (inst &&& 0xFFFFFF) <<< 2
         else ((inst &&& 0xFFFFFF) <<< 2) ||| 0xFC000000)) ∧
    (executeInstruction s inst).2.registers 15 = (executeInstruction s inst).2.pc ∧
    ((inst >>> 24) &&& 1 = 1 →
      (executeInstruction s inst).2.lr = u32 (s.pc + 4) ∧
      (executeInstruction s inst).2.registers 14 = u32 (s.pc + 4)) := by
  have hred : executeInstruction s inst =
      executeBranch { s with memory := some m, instructionCount := u64 (s.instructionCount + 1) } inst := by
    simp [executeInstruction, hm, checkCondition_inc, hcond, hfam]
  rw [hred]
  unfold executeBranch
  by_cases hL : inst >>> 24 % 2 = 1
  · simp [hL, upd]
  · simp [hL, upd]

/-- C6 witness: scenario 4 of the spec.  With PC = 0x100, executing
0xEB000000 (BL +0) yields LR = R14 = 0x104 and PC = R15 = 0x108. -/
theorem C6_branch_link_witness :
    (executeInstruction (setPC (init create 256) 0x100) 0xEB000000).1 = true ∧
    (executeInstruction (setPC (init create 256) 0x100) 0xEB000000).2.pc = 0x108 ∧
    (executeInstruction (setPC (init create 256) 0x100) 0xEB000000).2.registers 15 = 0x108 ∧
    (executeInstruction (setPC (init create 256) 0x100) 0xEB000000).2.lr = 0x104 ∧
    (executeInstruction (setPC (init create 256) 0x100) 0xEB000000).2.registers 14 = 0x104 := by
  have h := C6_branch_link (setPC (init create 256) 0x100) (fun _ => 0) 0xEB000000
    rfl (by decide) (by decide)
  obtain ⟨h1, h2, h3, h4⟩ := h
  obtain ⟨h5, h6⟩ := h4 (by decide)
  refine ⟨h1, ?_, ?_, ?_, ?_⟩
  · rw [h2]; decide
  · rw [h3, h2]; decide
  · rw [h5]; decide
  · rw [h6]; decide

/-- C7: in the register operand form, a shift amount of 0 — whether it
comes from the immediate field `bits[11:7]` or from `R[Rs] & 0xFF` — makes
the barrel shifter return `R[Rm]` unchanged, for all four shift types. -/
theorem C7_shift_amount_zero (s : Engine) (inst : Nat)
    (hI : (inst >>> 25) &&& 1 = 0)
    (h0 : (if (inst >>> 4) &&& 1 = 1 then (inst >>> 7) &&& 0x1F
           else s.reg ((inst >>> 8) &&& 0xF) &&& 0xFF) = 0) :
    shifterOperand s inst = s.reg (inst &&& 0xF) := by
  unfold shifterOperand
  rw [h0]
  have hlsl : lslCode (s.reg (inst &&& 0xF)) 0 = s.reg (inst &&& 0xF) := by
    simp [lslCode, Engine.reg, u32_idem]
  have hlsr : lsrCode (s.reg (inst &&& 0xF)) 0 = s.reg (inst &&& 0xF) := by
    simp [lsrCode, Engine.reg, u32_idem]
  have hasr : asrCode (s.reg (inst &&& 0xF)) 0 = s.reg (inst &&& 0xF) := by
    unfold asrCode
    rcases Nat.lt_or_ge (s.reg (inst &&& 0xF)) 2147483648 with hlt | hge
    · rw [if_pos hlt]
      simp [Engine.reg, u32_idem]
    · rw [if_neg (Nat.not_lt.2 hge)]
      show u32 (s.reg (inst &&& 0xF) >>> 0 ||| 4294967295 <<< 32) = s.reg (inst &&& 0xF)
      rw [Nat.shiftRight_zero, u32_or_shiftLeft32]
      simp [Engine.reg, u32_idem]
  have hror : rorCode (s.reg (inst &&& 0xF)) 0 = s.reg (inst &&& 0xF) := by
    simp [rorCode, Engine.reg, u32_idem]
  dsimp only
  split
  · exact hlsl
  · split
    · exact hlsr
    · split
      · exact hasr
      · exact hror

/-- C7 witness: with `R2 = 0xDEADBEEF`, `R0 = 0` and the ROR-by-register
operand encoding 0x62 (`Rm = 2`, type ROR, amount `R0 & 0xFF = 0`), the
shifter returns `R2` unchanged. -/
theorem C7_shift_amount_zero_witness :
    shifterOperand (setRegister (init create 256) 2 0xDEADBEEF) 0x62 =
      (setRegister (init create 256) 2 0xDEADBEEF).reg 2 := by
  have h := C7_shift_amount_zero (setRegister (init create 256) 2 0xDEADBEEF) 0x62
    (by decide) (by decide)
  simpa using h

/-- `upd` hits its own index. -/
theorem upd_self (f : Nat → Nat) (i v : Nat) : upd f i v i = v := by
  simp [upd]

/-- `upd` leaves other indices alone. -/
theorem upd_ne (f : Nat → Nat) (i v j : Nat) (h : j ≠ i) : upd f i v j = f j := by
  simp [upd, h]

/-- Bits below 32 pass through `u32` unchanged. -/
theorem u32_testBit_lt32 (x i : Nat) (hi : i < 32) : (u32 x).testBit i = x.testBit i := by
  have h : (4294967296 : Nat) = 2 ^ 32 := by norm_num
  unfold u32
  rw [h]
  have d1 : decide (i < 32) = true := decide_eq_true hi
  simp only [Nat.testBit_mod_two_pow, d1, Bool.true_and]

/-- Bits of the value written to CPSR by the data-processing flag update:
the low 28 bits come from the old CPSR and bit 28 (V) is cleared. -/
theorem newCPSR_testBit (x n z c : Nat) :
    (∀ i, i < 28 →
      ((x &&& 268435455) ||| (n <<< 31) ||| (z <<< 30) ||| (c <<< 29)).testBit i = x.testBit i) ∧
    ((x &&& 268435455) ||| (n <<< 31) ||| (z <<< 30) ||| (c <<< 29)).testBit 28 = false := by
  have h255 : (268435455 : Nat) = 2 ^ 28 - 1 := by norm_num
  rw [h255]
  constructor
  · intro i hi
    have d1 : decide (i < 28) = true := decide_eq_true hi
    have d2 : decide (31 ≤ i) = false := decide_eq_false (by omega)
    have d3 : decide (30 ≤ i) = false := decide_eq_false (by omega)
    have d4 : decide (29 ≤ i) = false := decide_eq_false (by omega)
    simp only [Nat.testBit_or, Nat.testBit_and, Nat.testBit_shiftLeft,
      Nat.testBit_two_pow_sub_one, d1, d2, d3, d4, Bool.and_true, Bool.false_and, Bool.or_false]
  · have d1 : decide (28 < 28) = false := rfl
    have d2 : decide (31 ≤ 28) = false := rfl
    have d3 : decide (30 ≤ 28) = false := rfl
    have d4 : decide (29 ≤ 28) = false := rfl
    simp only [Nat.testBit_or, Nat.testBit_and, Nat.testBit_shiftLeft,
      Nat.testBit_two_pow_sub_one, d1, d2, d3, d4, Bool.and_false, Bool.false_and, Bool.or_false]

/-- CPSR bit facts after storing the flag-update value into register 16. -/
theorem flagsCPSR_bits (t : Engine) (R : Nat) (c : Bool) :
    (∀ i, i < 28 →
      (Engine.reg { t with registers := upd t.registers 16 (flagsCPSR t R c) } 16).testBit i =
        (t.reg 16).testBit i) ∧
    (Engine.reg { t with registers := upd t.registers 16 (flagsCPSR t R c) } 16).testBit 28 =
      false := by
  constructor
  · intro i hi
    show (u32 (upd t.registers 16 (flagsCPSR t R c) 16)).testBit i = _
    rw [upd_self, u32_testBit_lt32 _ _ (by omega)]
    exact (newCPSR_testBit (t.reg 16) _ _ _).1 i hi
  · show (u32 (upd t.registers 16 (flagsCPSR t R c) 16)).testBit 28 = false
    rw [upd_self, u32_testBit_lt32 _ _ (by omega)]
    exact (newCPSR_testBit (t.reg 16) _ _ _).2

/-- The data-processing writeback never touches `registers[16]` (CPSR):
the destination index is at most 15. -/
theorem writeback_reg16 (s : Engine) (inst R : Nat) :
    Engine.reg (if ((inst >>> 21) &&& 0xF < 8 ∨ 11 < (inst >>> 21) &&& 0xF) then
        (if (inst >>> 12) &&& 0xF = 15 then { s with pc := R }
         else { s with registers := upd s.registers ((inst >>> 12) &&& 0xF) R })
      else s) 16 = s.reg 16 := by
  have hRd : (inst >>> 12) &&& 15 ≤ 15 := Nat.and_le_right
  have h16 : (16 : Nat) ≠ (inst >>> 12) &&& 15 := by omega
  split
  · split
    · rfl
    · simp [Engine.reg, upd, h16]
  · rfl

/-- CPSR bits across a data-processing step: bits 0..27 are always
preserved, and whenever the flag update fires (S bit set or op in 8..11,
and not a writeback to R15 with op below 8) bit 28 (V) is cleared. -/
theorem executeDataProcessing_reg16 (s : Engine) (inst : Nat) :
    (∀ i, i < 28 →
      ((executeDataProcessing s inst).2.reg 16).testBit i = (s.reg 16).testBit i) ∧
    ((((inst >>> 20) &&& 1 = 1 ∨ (inst >>> 21) &&& 0xF = 8 ∨ (inst >>> 21) &&& 0xF = 9 ∨
          (inst >>> 21) &&& 0xF = 10 ∨ (inst >>> 21) &&& 0xF = 11) ∧
        ((inst >>> 12) &&& 0xF ≠ 15 ∨ 8 ≤ (inst >>> 21) &&& 0xF)) →
      ((executeDataProcessing s inst).2.reg 16).testBit 28 = false) := by
  unfold executeDataProcessing
  dsimp only
  by_cases hflag : (((inst >>> 20) &&& 1 = 1 ∨ (inst >>> 21) &&& 0xF = 8 ∨
      (inst >>> 21) &&& 0xF = 9 ∨ (inst >>> 21) &&& 0xF = 10 ∨ (inst >>> 21) &&& 0xF = 11) ∧
      ((inst >>> 12) &&& 0xF ≠ 15 ∨ 8 ≤ (inst >>> 21) &&& 0xF))
  · rw [if_pos hflag]
    constructor
    · intro i hi
      rw [(flagsCPSR_bits _ _ _).1 i hi, writeback_reg16]
    · intro _
      rw [(flagsCPSR_bits _ _ _).2]
  · rw [if_neg hflag]
    constructor
    · intro i hi
      rw [writeback_reg16]
    · intro h
      exact absurd h hflag

/-- Condition-skipped instructions: success, counter bump, nothing else. -/
theorem executeInstruction_skip (s : Engine) (m : Nat → Nat) (inst : Nat)
    (hm : s.memory = some m)
    (hcond : checkCondition s ((inst >>> 28) &&& 0xF) = false) :
    executeInstruction s inst =
      (true, { s with instructionCount := u64 (s.instructionCount + 1) }) := by
  simp [executeInstruction, hm, checkCondition_inc, hcond]

/-- C2 (amended): a data-processing word (`bits[27:26] = 0`, `bit[25] = 0`)
preserves bits 0..27 of CPSR in every case, and whenever the flag update
fires (condition passes, S bit set or op TST/TEQ/CMP/CMN, and not an
op-below-8 writeback to R15) bit 28 — the V flag — is cleared to 0 rather
than preserved; only when no flag update happens is V (like all of CPSR)
unchanged. -/
theorem C2_flag_update (s : Engine) (m : Nat → Nat) (inst : Nat)
    (hm : s.memory = some m)
    (hfam : (inst >>> 26) &&& 3 = 0 ∧ (inst >>> 25) &&& 1 = 0) :
    (∀ i, i < 28 →
      ((executeInstruction s inst).2.reg 16).testBit i = (s.reg 16).testBit i) ∧
    (checkCondition s ((inst >>> 28) &&& 0xF) = true →
      ((inst >>> 20) &&& 1 = 1 ∨ (inst >>> 21) &&& 0xF = 8 ∨ (inst >>> 21) &&& 0xF = 9 ∨
        (inst >>> 21) &&& 0xF = 10 ∨ (inst >>> 21) &&& 0xF = 11) →
      ((inst >>> 12) &&& 0xF ≠ 15 ∨ 8 ≤ (inst >>> 21) &&& 0xF) →
      ((executeInstruction s inst).2.reg 16).testBit 28 = false) := by
  have hfam2 : inst >>> 25 % 2 = 0 := by rw [← Nat.and_one_is_mod]; exact hfam.2
  by_cases hc : checkCondition s ((inst >>> 28) &&& 0xF) = true
  · have hred : executeInstruction s inst =
        executeDataProcessing
          { s with memory := some m, instructionCount := u64 (s.instructionCount + 1) } inst := by
      simp [executeInstruction, hm, checkCondition_inc, hc, hfam.1, hfam2]
    rw [hred]
    have h := executeDataProcessing_reg16
      { s with memory := some m, instructionCount := u64 (s.instructionCount + 1) } inst
    constructor
    · intro i hi
      rw [h.1 i hi]
      rfl
    · intro _ h1 h2
      exact h.2 ⟨h1, h2⟩
  · have hcf : checkCondition s ((inst >>> 28) &&& 0xF) = false := by
      revert hc
      cases checkCondition s ((inst >>> 28) &&& 0xF) <;> simp
    rw [executeInstruction_skip s m inst hm hcf]
    constructor
    · intro i hi
      rfl
    · intro hcc
      exact absurd hcc hc

/-- C2 witness: with CPSR = 0x10000001 (V and bit 0 set), `TST R0, R0`
(0xE1100000) preserves bit 0 and clears bit 28. -/
theorem C2_flag_update_witness :
    ((executeInstruction (setRegister (init create 256) 16 268435457) 0xE1100000).2.reg
        16).testBit 0 =
      ((setRegister (init create 256) 16 268435457).reg 16).testBit 0 ∧
    ((executeInstruction (setRegister (init create 256) 16 268435457) 0xE1100000).2.reg
        16).testBit 28 = false :=
  ⟨(C2_flag_update (setRegister (init create 256) 16 268435457) (fun _ => 0) 0xE1100000
      rfl (by decide)).1 0 (by decide),
   (C2_flag_update (setRegister (init create 256) 16 268435457) (fun _ => 0) 0xE1100000
      rfl (by decide)).2 (by decide) (by decide) (by decide)⟩

/-- `writeBytes` does not change offsets outside the written range. -/
theorem writeBytes_untouched (data : List Nat) (m : Nat → Nat) (a j : Nat)
    (h : ∀ k, k < data.length → u32 (a + k) ≠ j) :
    writeBytes m a data j = m j := by
  induction data generalizing m a with
  | nil => rfl
  | cons b rest ih =>
    show writeBytes (upd m (u32 a) (u8 b)) (a + 1) rest j = m j
    have h0 : u32 a ≠ j := by
      have := h 0 (Nat.succ_pos _)
      simpa using this
    rw [ih (upd m (u32 a) (u8 b)) (a + 1) ?_]
    · exact upd_ne m (u32 a) (u8 b) j (Ne.symm h0)
    · intro k hk
      have hx := h (k + 1) (by simpa using Nat.succ_lt_succ hk)
      rw [show a + 1 + k = a + (k + 1) by omega]
      exact hx

/-- `writeBytes` stores byte `i` of the data at wrapped offset
`address + i` (the written offsets are pairwise distinct because the data
fits in the 32-bit address space). -/
theorem writeBytes_get (data : List Nat) (m : Nat → Nat) (a i : Nat)
    (hi : i < data.length) (hlen : data.length ≤ 4294967296) :
    writeBytes m a data (u32 (a + i)) = u8 data[i] := by
  induction data generalizing m a i with
  | nil => simp at hi
  | cons b rest ih =>
    cases i with
    | zero =>
      show writeBytes (upd m (u32 a) (u8 b)) (a + 1) rest (u32 (a + 0)) = u8 b
      rw [writeBytes_untouched rest (upd m (u32 a) (u8 b)) (a + 1) (u32 (a + 0)) ?_]
      · rw [show a + 0 = a from rfl]
        exact upd_self m (u32 a) (u8 b)
      · intro k hk
        have hk2 : k + 1 < 4294967296 := by
          have : rest.length + 1 ≤ 4294967296 := by simpa using hlen
          omega
        unfold u32
        intro hEq
        omega
    | succ i2 =>
      have hi2 : i2 < rest.length := by simpa using Nat.lt_of_succ_lt_succ hi
      show writeBytes (upd m (u32 a) (u8 b)) (a + 1) rest (u32 (a + (i2 + 1))) = u8 rest[i2]
      rw [show a + (i2 + 1) = a + 1 + i2 by omega]
      exact ih (upd m (u32 a) (u8 b)) (a + 1) i2 hi2 (by simp at hlen; omega)

/-- C8: if `writeMemory(a, D)` succeeds on an initialized engine then
`readMemory(a, |D|)` succeeds and returns exactly the bytes `D` (here `D`
is a byte sequence whose `uint32_t` length is `|D|`). -/
theorem C8_write_read_roundtrip (s t : Engine) (address : Nat) (data : List Nat)
    (hlen : data.length < 4294967296) (hdata : ∀ b ∈ data, b < 256)
    (hw : writeMemory s address data = some t) :
    readMemory t address data.length = some data := by
  unfold writeMemory at hw
  cases hmem : s.memory with
  | none =>
    rw [hmem] at hw
    exact absurd hw (by simp)
  | some m =>
    rw [hmem] at hw
    dsimp only at hw
    split at hw
    · exact absurd hw (by simp)
    · rw [Option.some.injEq] at hw
      subst hw
      unfold readMemory
      dsimp only
      rw [if_neg ?_]
      · refine congrArg some (List.ext_getElem (by simp) ?_)
        intro i h1 h2
        simp only [List.getElem_map, List.getElem_range]
        have hi : i < data.length := by simpa using h2
        rw [writeBytes_get data m address i hi (le_of_lt hlen)]
        have hb : data[i] < 256 := hdata _ (List.getElem_mem hi)
        simp [u8, Nat.mod_eq_of_lt hb]
      · split
        · simp only [u32]
          omega
        · simp only [u32] at *
          omega

/-- C8 witness: writing bytes 1, 2, 3 at address 10 of a 256-byte engine
succeeds and reading them back returns exactly 1, 2, 3. -/
theorem C8_write_read_roundtrip_witness :
    readMemory ((writeMemory (init create 256) 10 [1, 2, 3]).getD create) 10 3 =
      some [1, 2, 3] :=
  C8_write_read_roundtrip (init create 256) _ 10 [1, 2, 3] (by decide) (by decide) rfl

/-- C9: right after `init(n)` the logical memory size equals the full
capacity — `n` when `n > 0` and 64 MiB when `n = 0` — so every in-range
read succeeds with no prior write: `readMemory` succeeds on every range
inside the capacity, and a byte-load instruction (LDRB, 0xE7D10000 with
base register R1) succeeds at every address below the capacity. -/
theorem C9_init_memory_size (s : Engine) (n : Nat) (hn : n < 4294967296) :
    getMemorySize (init s n) = (if 0 < n then n else 67108864) ∧
    (∀ a len, a + len ≤ getMemorySize (init s n) →
      (readMemory (init s n) a len).isSome = true) ∧
    (∀ a, a + 1 ≤ getMemorySize (init s n) →
      (executeInstruction (setRegister (init s n) 1 a) 0xE7D10000).1 = true) := by
  have hcapU : (if 0 < n then n else 67108864) < 4294967296 := by
    split
    · exact hn
    · norm_num
  have hcap : getMemorySize (init s n) = (if 0 < n then n else 67108864) := by
    unfold getMemorySize init
    dsimp only
    exact Nat.mod_eq_of_lt hcapU
  refine ⟨hcap, ?_, ?_⟩
  · intro a len hle
    rw [hcap] at hle
    unfold readMemory init
    dsimp only
    rw [if_neg ?_]
    · rfl
    · have h1 : u32 (a + len) = a + len := Nat.mod_eq_of_lt (by omega)
      have h2 : u32 (if 0 < n then n else 67108864) = (if 0 < n then n else 67108864) :=
        Nat.mod_eq_of_lt hcapU
      rw [h1, h2]
      omega
  · intro a hle
    rw [hcap] at hle
    have hua : u32 a = a := Nat.mod_eq_of_lt (by omega)
    have hua1 : u32 (a + 1) = a + 1 := Nat.mod_eq_of_lt (by omega)
    have hucap : u32 (if 0 < n then n else 67108864) = (if 0 < n then n else 67108864) :=
      Nat.mod_eq_of_lt hcapU
    have hnotlt : ¬ (if 0 < n then n else 67108864) < a + 1 := by omega
    have e1 : (14 : Nat) &&& 15 = 14 := rfl
    have e2 : (57 : Nat) &&& 3 = 1 := rfl
    have e3 : (59345 : Nat) &&& 15 = 1 := rfl
    have e4 : (949520 : Nat) &&& 15 = 0 := rfl
    have e5 : (3889233920 : Nat) &&& 4095 = 0 := rfl
    have e6 : (3889233920 : Nat) &&& 15 = 0 := rfl
    have e7 : (15192320 : Nat) &&& 15 = 0 := rfl
    simp [executeInstruction, executeLoadStore, checkCondition, setRegister, init,
      Engine.reg, upd, u32_idem, hua, hua1, hucap, hnotlt, e1, e2, e3, e4, e5, e6, e7]

/-- C9 witness: `init(256)` reports size 256; the 4-byte range at 100 is
readable; the byte-load at the last address 255 succeeds. -/
theorem C9_init_memory_size_witness :
    getMemorySize (init create 256) = (if 0 < 256 then 256 else 67108864) ∧
    (readMemory (init create 256) 100 4).isSome = true ∧
    (executeInstruction (setRegister (init create 256) 1 255) 0xE7D10000).1 = true :=
  ⟨(C9_init_memory_size create 256 (by decide)).1,
   (C9_init_memory_size create 256 (by decide)).2.1 100 4 (by decide),
   (C9_init_memory_size create 256 (by decide)).2.2 255 (by decide)⟩

end ARMEmulatorCore
